import Mathlib

/-!
Verification of the data-quality-guardrails analysis core
(`backend/utils/stats_utils.py` and `backend/pipeline/graph.py`).

Modelling conventions:
* A cell value is numeric, boolean, text, or the missing marker (pandas `NaN`).
  Numbers are modelled with exact rationals; every float field that the code can
  set to Python's `nan` is modelled as an `Option ℚ` whose `none` is `nan`/`None`.
* A pandas `Series` is a `Column`: a dtype tag plus the list of cell values.
  `pd.api.types.is_numeric_dtype` is true for both numeric and boolean dtypes.
* A `DataFrame` is an ordered association list of named columns plus a row
  count; well-formedness ties the dtype tag to the shape of the values.
* `pd.to_numeric` / `pd.to_datetime` scalar coercion on strings is modelled by a
  concrete decimal parser / date-shape test; no claim depends on the exact
  accepted literal language, only on each value having a definite parse outcome.
-/

inductive Value where
  | vNum (q : ℚ)
  | vBool (b : Bool)
  | vStr (s : String)
  | vNull
deriving DecidableEq

def Value.isNull : Value → Bool
  | .vNull => true
  | _ => false

/-- The dtypes a CSV-loaded pandas column can carry in this pipeline. -/
inductive Dtype where
  | boolean
  | numeric
  | object
deriving DecidableEq

/-- `pd.api.types.is_bool_dtype`. -/
def isBoolDtype (d : Dtype) : Bool := d == Dtype.boolean

/-- `pd.api.types.is_numeric_dtype`: true for numeric and boolean dtypes
(numpy `bool_` is among the classes pandas counts as numeric). -/
def isNumericDtype (d : Dtype) : Bool := d == Dtype.numeric || d == Dtype.boolean

structure Column where
  dtype : Dtype
  values : List Value
deriving DecidableEq

/-- Dtype tag is consistent with the cell values (what pandas guarantees):
a strict `bool`-dtype column holds only booleans (it cannot hold `NaN`);
a numeric column holds numbers and `NaN`; `object` columns hold anything. -/
def Column.wfB (c : Column) : Bool :=
  match c.dtype with
  | .boolean => c.values.all (fun v => match v with | .vBool _ => true | _ => false)
  | .numeric => c.values.all (fun v => match v with | .vNum _ => true | .vNull => true | _ => false)
  | .object => true

structure DFrame where
  cols : List (String × Column)
  nrows : Nat
deriving DecidableEq

/-- Every column has `nrows` cells and column labels are distinct. -/
def DFrame.wfB (df : DFrame) : Bool :=
  df.cols.all (fun p => p.2.wfB && (p.2.values.length == df.nrows))
    && (df.cols.map Prod.fst).Nodup

/-- `df[name]`: label lookup. The default is never reached under the callers'
membership side conditions (Python would raise `KeyError`). -/
def lookupCol (df : DFrame) (name : String) : Column :=
  match df.cols.lookup name with
  | some c => c
  | none => Column.mk Dtype.object []

/-- Python `str()` of a cell, as `Series.astype(str)` produces it:
`str(True) = "True"`, `str(np.nan) = "nan"`; integers print without a decimal
point.  Non-integer rationals print in Lean's `a/b` form rather than decimal
notation — no claim depends on the rendering, only on it being a function of
the value. -/
def valueToStr : Value → String
  | .vStr s => s
  | .vBool true => "True"
  | .vBool false => "False"
  | .vNull => "nan"
  | .vNum q => if q.den == 1 then toString q.num else toString q

/-- Python `str.lower()` (ASCII case folding, as `.str.lower()` applies to the
stringified cells here). -/
def strLower (s : String) : String := String.mk (s.data.map Char.toLower)

def digitsToNatAux : List Char → Nat → Option Nat
  | [], acc => some acc
  | c :: cs, acc =>
    if c.isDigit then digitsToNatAux cs (acc * 10 + (c.toNat - 48)) else none

/-- Models the numeric-literal coercion `pd.to_numeric` performs on a string:
optional sign, integer digits, optional fraction digits (exponent forms are
omitted; no claim depends on the exact accepted language). Returns `none` when
the string does not coerce (the coerced cell is `NaN`). -/
def parseDec (s : String) : Option ℚ :=
  let cs := s.data
  let signRest : Bool × List Char :=
    match cs with
    | '-' :: r => (true, r)
    | '+' :: r => (false, r)
    | r => (false, r)
  let neg := signRest.1
  let body := signRest.2
  let intPart := body.takeWhile Char.isDigit
  let rest := body.dropWhile Char.isDigit
  match rest with
  | [] =>
    if intPart.isEmpty then none
    else match digitsToNatAux intPart 0 with
      | some n => some (if neg then -(n : ℚ) else (n : ℚ))
      | none => none
  | '.' :: fracPart =>
    if fracPart.any (fun c => !c.isDigit) then none
    else if intPart.isEmpty && fracPart.isEmpty then none
    else match digitsToNatAux intPart 0, digitsToNatAux fracPart 0 with
      | some ip, some fp =>
        let q : ℚ := (ip : ℚ) + (fp : ℚ) / ((10 : ℚ) ^ fracPart.length)
        some (if neg then -q else q)
      | _, _ => none
  | _ => none

/-- `pd.to_numeric(·, errors="coerce")` on one cell: numbers pass through,
booleans coerce to 1/0, the missing marker stays missing (`NaN`), strings go
through the literal parser. -/
def numCoerce : Value → Option ℚ
  | .vNum q => some q
  | .vBool b => some (if b then 1 else 0)
  | .vNull => none
  | .vStr s => parseDec s

/-- A string of the shape `DDDD-DD-DD` (digits only). -/
def isDateLike (s : String) : Bool :=
  match s.data with
  | [y1, y2, y3, y4, '-', m1, m2, '-', d1, d2] =>
    y1.isDigit && y2.isDigit && y3.isDigit && y4.isDigit
      && m1.isDigit && m2.isDigit && d1.isDigit && d2.isDigit
  | _ => false

/-- Models `pd.to_datetime(·, errors="coerce")` on one cell: date-shaped strings
and epoch numbers coerce; booleans and the missing marker give `NaT`. -/
def dateCoerces : Value → Bool
  | .vStr s => isDateLike s
  | .vNum _ => true
  | .vBool _ => false
  | .vNull => false

/-- The non-missing values of `pd.to_numeric(series, errors="coerce")`, i.e.
`numeric_series.dropna()`. -/
def nonNullNums (c : Column) : List ℚ := c.values.filterMap numCoerce

/-- The non-missing cells, `series.dropna()`. -/
def nonNullValues (c : Column) : List Value := c.values.filter (fun v => !v.isNull)

/-- `np.nanmean` guarded by `.notna().any()`: `none` when no non-missing value. -/
def meanOpt (xs : List ℚ) : Option ℚ :=
  if xs.isEmpty then none else some (xs.sum / (xs.length : ℚ))

/-- Models `np.nanstd` up to the (monotone) square root: the stored value is
the population variance.  No claim depends on this field's value, only on
whether it is null, which the square root preserves. -/
def stdOpt (xs : List ℚ) : Option ℚ :=
  match meanOpt xs with
  | none => none
  | some m => some ((xs.map (fun x => (x - m) ^ 2)).sum / (xs.length : ℚ))

def minOpt (xs : List ℚ) : Option ℚ :=
  xs.foldl (fun acc x => match acc with
    | none => some x
    | some m => some (if x < m then x else m)) none

def maxOpt (xs : List ℚ) : Option ℚ :=
  xs.foldl (fun acc x => match acc with
    | none => some x
    | some m => some (if x > m then x else m)) none

/-- `Series.quantile(qnum/qden)` with pandas' default linear interpolation,
over the sorted values: position `p = (qnum/qden)·(n−1)`, result
`x⌊p⌋ + (p−⌊p⌋)·(x⌊p⌋₊₁ − x⌊p⌋)`.  The floor is taken by natural division. -/
def quantileSorted (xs : List ℚ) (qnum qden : Nat) : ℚ :=
  let n := xs.length
  let i := qnum * (n - 1) / qden
  let frac : ℚ := ((qnum * (n - 1) : Nat) : ℚ) / (qden : ℚ) - (i : ℚ)
  let lo := xs.getD i 0
  let hi := xs.getD (i + 1) lo
  lo + frac * (hi - lo)

/-- `_iqr_outliers(series)`: the IQR rule on an already-`dropna`'d numeric
series.  (`pd.isna(iqr)` is always false here: the input holds no `NaN`.) -/
def _iqr_outliers (xs : List ℚ) : Nat :=
  if xs.isEmpty then 0
  else
    let sorted := xs.mergeSort (· ≤ ·)
    let q1 := quantileSorted sorted 1 4
    let q3 := quantileSorted sorted 3 4
    let iqr := q3 - q1
    if iqr = 0 then 0
    else
      let lower := q1 - 3/2 * iqr
      let upper := q3 + 3/2 * iqr
      (xs.filter (fun x => decide (x < lower) || decide (upper < x))).length

/-- `_safe_sample(values)`: first `k` distinct non-missing values in
first-seen order. -/
def _safe_sample (values : List Value) (k : Nat := 5) : List Value :=
  ((values.filter (fun v => !v.isNull)).eraseDups).take k

/-- `str(series.dtype)`. -/
def dtypeName : Dtype → String
  | .numeric => "float64"
  | .boolean => "bool"
  | .object => "object"

structure NumericSummary where
  smin : Option ℚ
  smax : Option ℚ
  smean : Option ℚ
  sstd : Option ℚ
deriving DecidableEq

/-- The `ColumnProfile` dataclass. -/
structure ColumnProfile where
  name : String
  dtype : String
  missing_count : Nat
  missing_percent : ℚ
  unique_count : Nat
  sample_values : List Value
  numeric_summary : Option NumericSummary
  outlier_count : Nat
deriving DecidableEq

/-- One iteration of the `profile_dataframe` loop body. `numeric_summary` is
`none` for the empty dict `{}` of the non-numeric branch. -/
def profileColumn (name : String) (c : Column) : ColumnProfile :=
  let missing_count := (c.values.filter Value.isNull).length
  let nums := nonNullNums c
  { name := name
    dtype := dtypeName c.dtype
    missing_count := missing_count
    missing_percent := (missing_count : ℚ) / (max c.values.length 1 : ℚ)
    unique_count := (nonNullValues c).eraseDups.length
    sample_values := _safe_sample c.values
    numeric_summary :=
      if isNumericDtype c.dtype then
        some { smin := minOpt nums, smax := maxOpt nums
               smean := meanOpt nums, sstd := stdOpt nums }
      else none
    outlier_count := if isNumericDtype c.dtype then _iqr_outliers nums else 0 }

structure ProfileResult where
  row_count : Nat
  column_count : Nat
  columns : List ColumnProfile
deriving DecidableEq

def profile_dataframe (df : DFrame) : ProfileResult :=
  { row_count := df.nrows
    column_count := df.cols.length
    columns := df.cols.map (fun p => profileColumn p.1 p.2) }

inductive ColType where
  | numeric
  | boolean
  | datetime
  | string
deriving DecidableEq

def boolTokens : List String := ["true", "false", "0", "1", "yes", "no"]

/-- `infer_column_type(series)` (the returned label; diagnostics dropped). -/
def infer_column_type (c : Column) : ColType :=
  if isBoolDtype c.dtype then ColType.boolean
  else if isNumericDtype c.dtype then ColType.numeric
  else
    let non_null := nonNullValues c
    if non_null.isEmpty then ColType.string
    else
      let numeric_ratio : ℚ :=
        ((non_null.filter (fun v => (numCoerce v).isSome)).length : ℚ) / (non_null.length : ℚ)
      let datetime_ratio : ℚ :=
        ((non_null.filter dateCoerces).length : ℚ) / (non_null.length : ℚ)
      if 9/10 ≤ datetime_ratio then ColType.datetime
      else if 9/10 ≤ numeric_ratio then ColType.numeric
      else
        let bool_ratio : ℚ :=
          ((non_null.filter (fun v => boolTokens.contains (strLower (valueToStr v)))).length : ℚ)
            / (non_null.length : ℚ)
        if 9/10 ≤ bool_ratio then ColType.boolean
        else ColType.string

structure ViolationRecord where
  invalid_count : Nat
  invalid_percent : Option ℚ
deriving DecidableEq

/-- One iteration of the `detect_schema_violations` loop body.  In the
`numeric`/`datetime` branches `invalid_percent` is `invalid.mean()`, the mean
of a boolean mask over the whole series — `NaN` (`none`) on an empty series.
The `boolean` branch divides by `max(len(series), 1)` instead. -/
def violationsFor (c : Column) : ColType → ViolationRecord
  | .numeric =>
    let invalid := c.values.filter (fun v => !v.isNull && (numCoerce v).isNone)
    { invalid_count := invalid.length
      invalid_percent :=
        if c.values.length = 0 then none
        else some ((invalid.length : ℚ) / (c.values.length : ℚ)) }
  | .datetime =>
    let invalid := c.values.filter (fun v => !v.isNull && !dateCoerces v)
    { invalid_count := invalid.length
      invalid_percent :=
        if c.values.length = 0 then none
        else some ((invalid.length : ℚ) / (c.values.length : ℚ)) }
  | .boolean =>
    let lowered := (nonNullValues c).map (fun v => strLower (valueToStr v))
    let ic := (lowered.filter (fun s => !boolTokens.contains s)).length
    { invalid_count := ic
      invalid_percent := some ((ic : ℚ) / (max c.values.length 1 : ℚ)) }
  | .string =>
    { invalid_count := 0, invalid_percent := some 0 }

/-- `detect_schema_violations(df, inferred_schema)`.  The Python mapping is a
dict iterated in insertion order; it is modelled as an association list. -/
def detect_schema_violations (df : DFrame) (inferred_schema : List (String × ColType)) :
    List (String × ViolationRecord) :=
  inferred_schema.map (fun p => (p.1, violationsFor (lookupCol df p.1) p.2))


structure NumericDrift where
  current_mean : Option ℚ
  baseline_mean : Option ℚ
  current_std : Option ℚ
  baseline_std : Option ℚ
  mean_delta : Option ℚ
deriving DecidableEq

structure CategoricalDrift where
  current_top : Option String
  current_top_freq : Option ℚ
  baseline_top : Option String
  baseline_top_freq : Option ℚ
deriving DecidableEq

structure DriftResult where
  numeric : List (String × NumericDrift)
  categorical : List (String × CategoricalDrift)
  notes : List String
deriving DecidableEq

/-- `series.astype(str)`: every cell — the missing marker included — becomes
its Python string form (`NaN` becomes the string `"nan"`). -/
def stringified (c : Column) : List String := c.values.map valueToStr

/-- The index entry of `value_counts(dropna=True).head(1)` on an already
stringified series: the most frequent string, earliest first occurrence
winning ties; `none` exactly when the series has no cells at all.  (After
`astype(str)` no cell is missing, so `dropna=True` drops nothing.) -/
def topValue (xs : List String) : Option String :=
  xs.eraseDups.foldl
    (fun best s =>
      match best with
      | none => some s
      | some b =>
        if (xs.filter (fun y => y == s)).length > (xs.filter (fun y => y == b)).length
        then some s else best)
    none

/-- The count that goes with `topValue`. -/
def topFreq (xs : List String) : Option ℚ :=
  (topValue xs).map (fun t => ((xs.filter (fun y => y == t)).length : ℚ))

def sharedColumns (current baseline : DFrame) : List String :=
  (current.cols.map Prod.fst).filter (fun n => (baseline.cols.map Prod.fst).contains n)

/-- `detect_drift(current, baseline)`. -/
def detect_drift (current baseline : DFrame) : DriftResult :=
  let shared := sharedColumns current baseline
  let numeric := shared.filterMap (fun name =>
    let cur := lookupCol current name
    let base := lookupCol baseline name
    if isNumericDtype cur.dtype && isNumericDtype base.dtype then
      let cn := nonNullNums cur
      let bn := nonNullNums base
      some (name,
        ({ current_mean := meanOpt cn
           baseline_mean := meanOpt bn
           current_std := stdOpt cn
           baseline_std := stdOpt bn
           mean_delta :=
             match meanOpt cn, meanOpt bn with
             | some a, some b => some (a - b)
             | _, _ => none } : NumericDrift))
    else none)
  let categorical := shared.filterMap (fun name =>
    let cur := lookupCol current name
    let base := lookupCol baseline name
    if isNumericDtype cur.dtype && isNumericDtype base.dtype then none
    else
      let cs := stringified cur
      let bs := stringified base
      some (name,
        ({ current_top := topValue cs
           current_top_freq := topFreq cs
           baseline_top := topValue bs
           baseline_top_freq := topFreq bs } : CategoricalDrift)))
  { numeric := numeric
    categorical := categorical
    notes :=
      if shared.isEmpty then ["No shared columns between current and baseline datasets."]
      else [] }

structure Recommendation where
  column : String
  issue : String
  recommendation : String
  severity : String
deriving DecidableEq

structure SchemaSection where
  inferred : List (String × ColType)
  violations : List (String × ViolationRecord)
deriving DecidableEq

/-- The `schema_issue.get("invalid_percent", 0) > 0.1` test: a missing record
gives the default 0 and a `NaN` percent compares false. -/
def invalidPercentHigh (r : ViolationRecord) : Bool :=
  match r.invalid_percent with
  | some p => decide (1/10 < p)
  | none => false

/-- The per-column body of the `recommend_fixes` loop, in source order:
missing values, then outliers, then schema violations. -/
def recsForColumn (col : ColumnProfile) (schemaViolations : List (String × ViolationRecord)) :
    List Recommendation :=
  (if 1/20 ≤ col.missing_percent then
    [{ column := col.name
       issue := "missing_values"
       recommendation := "Consider imputing missing values (mean/median for numeric, mode for categorical)."
       severity := if col.missing_percent < 1/5 then "medium" else "high" }]
   else [])
  ++ (if 0 < col.outlier_count then
    [{ column := col.name
       issue := "outliers"
       recommendation := "Consider clipping, winsorization, or removing outliers."
       severity := "medium" }]
   else [])
  ++ (match schemaViolations.lookup col.name with
      | some r =>
        if 0 < r.invalid_count then
          [{ column := col.name
             issue := "schema_violations"
             recommendation := "Consider casting values to the inferred type or cleaning invalid entries."
             severity := if invalidPercentHigh r then "high" else "medium" }]
        else []
      | none => [])

/-- `recommend_fixes(profile, schema)`: one pass over the profile's columns,
appending each column's applicable recommendations. -/
def recommend_fixes (profile : ProfileResult) (schema : SchemaSection) : List Recommendation :=
  profile.columns.flatMap (fun col => recsForColumn col schema.violations)

/-- The accumulating report dict.  `drift := none` covers both the key being
absent and the `None` stored when there is no baseline. -/
structure Report where
  profile : Option ProfileResult
  schema : Option SchemaSection
  drift : Option DriftResult
  recommendations : List Recommendation
  summary : String
deriving DecidableEq

def emptyReport : Report :=
  { profile := none, schema := none, drift := none, recommendations := [], summary := "" }

def emptyProfileResult : ProfileResult := { row_count := 0, column_count := 0, columns := [] }

def emptySchemaSection : SchemaSection := { inferred := [], violations := [] }

/-- `summarize_report(report)`. -/
def summarize_report (r : Report) : String :=
  let profile := r.profile.getD emptyProfileResult
  let viols := (r.schema.getD emptySchemaSection).violations
  let totalInvalid := (viols.map (fun p => p.2.invalid_count)).sum
  let parts : List String :=
    ["Rows: " ++ toString profile.row_count ++ ", Columns: "
       ++ toString profile.column_count ++ ".",
     "Schema violations: " ++ toString totalInvalid ++ ".",
     "Recommendations: " ++ toString r.recommendations.length ++ "."]
  let parts := parts ++
    (match r.drift with
     | some d => if !d.numeric.isEmpty || !d.categorical.isEmpty
                 then ["Baseline drift comparison included."] else []
     | none => [])
  String.intercalate " " parts

/-- The langgraph pipeline state: the dataset(s) plus the accumulating
report.  Each node returns only a report update, which the runner merges
back into the state — the dataset and baseline fields pass through. -/
structure PipelineState where
  dataset : DFrame
  baseline : Option DFrame
  report : Report
deriving DecidableEq

def profile_node (s : PipelineState) : PipelineState :=
  { s with report := { s.report with profile := some (profile_dataframe s.dataset) } }

/-- The inferred-schema dict built in `schema_node`:
`{col: infer_column_type(df[col])[0] for col in df.columns}`. -/
def inferredSchema (df : DFrame) : List (String × ColType) :=
  df.cols.map (fun p => (p.1, infer_column_type p.2))

def schema_node (s : PipelineState) : PipelineState :=
  let inferred := inferredSchema s.dataset
  let violations := detect_schema_violations s.dataset inferred
  { s with report := { s.report with
      schema := some { inferred := inferred, violations := violations } } }

def drift_node (s : PipelineState) : PipelineState :=
  { s with report := { s.report with
      drift := match s.baseline with
        | some b => some (detect_drift s.dataset b)
        | none => none } }

def fix_node (s : PipelineState) : PipelineState :=
  let report := s.report
  let recs := recommend_fixes (report.profile.getD emptyProfileResult)
    (report.schema.getD emptySchemaSection)
  let report1 := { report with recommendations := recs }
  { s with report := { report1 with summary := summarize_report report1 } }

/-- The compiled graph: profile → schema → drift → fix. -/
def runPipeline (s : PipelineState) : PipelineState :=
  fix_node (drift_node (schema_node (profile_node s)))

/-- `pipeline.invoke({"dataset": df, "baseline": baseline, "report": {}})`. -/
def analyze (df : DFrame) (baseline : Option DFrame) : Report :=
  (runPipeline { dataset := df, baseline := baseline, report := emptyReport }).report

/-! ### Specification-side definitions

These restate, in the spec's own words, the rules the claims assert about the
code; each is compared against the corresponding source-derived definition
above. -/

/-- Fraction of the (non-empty) list satisfying `p` — a coercion ratio. -/
def ratioOf (l : List Value) (p : Value → Bool) : ℚ :=
  ((l.filter p).length : ℚ) / (l.length : ℚ)

/-- The Type Inferrer decision list as the claim words it, first match wins:
source-level boolean dtype → boolean; else source-level numeric dtype →
numeric; else no non-missing values → string; else datetime_ratio ≥ 0.9 →
datetime, else numeric_ratio ≥ 0.9 → numeric, else boolean_ratio (fraction of
case-insensitively stringified non-missing values in the boolean token set)
≥ 0.9 → boolean, else string. -/
def inferTypeSpec (c : Column) : ColType :=
  if isBoolDtype c.dtype then ColType.boolean
  else if isNumericDtype c.dtype then ColType.numeric
  else if (nonNullValues c).isEmpty then ColType.string
  else if 9/10 ≤ ratioOf (nonNullValues c) dateCoerces then ColType.datetime
  else if 9/10 ≤ ratioOf (nonNullValues c) (fun v => (numCoerce v).isSome) then ColType.numeric
  else if 9/10 ≤ ratioOf (nonNullValues c)
      (fun v => boolTokens.contains (strLower (valueToStr v))) then ColType.boolean
  else ColType.string

/-- The claim's IQR outlier rule for one column: with Q1, Q3 the 25th/75th
percentiles of the non-missing values and IQR = Q3 − Q1, the count is 0
whenever the IQR is undefined or zero (empty and constant columns included),
and otherwise the number of values strictly outside
[Q1 − 1.5·IQR, Q3 + 1.5·IQR]; 0 for non-numeric columns. -/
def outlierCountSpec (c : Column) : Nat :=
  if isNumericDtype c.dtype then
    let xs := nonNullNums c
    if xs.isEmpty then 0
    else
      let sorted := xs.mergeSort (· ≤ ·)
      let q1 := quantileSorted sorted 1 4
      let q3 := quantileSorted sorted 3 4
      let iqr := q3 - q1
      if iqr = 0 then 0
      else (xs.filter (fun x =>
        decide (x < q1 - 3/2 * iqr) || decide (q3 + 3/2 * iqr < x))).length
  else 0

/-- The claim's per-column recommendation table, as (column, issue, severity)
triples in the claimed order: a missing_values entry iff missing_percent ≥
0.05 (high iff ≥ 0.2), an outliers entry iff outlier_count > 0 (always
medium), a schema_violations entry iff the column's violation record has
invalid_count > 0 (high iff invalid_percent > 0.1). -/
def recTriplesSpec (col : ColumnProfile) (viol : List (String × ViolationRecord)) :
    List (String × String × String) :=
  (if 1/20 ≤ col.missing_percent then
    [(col.name, "missing_values",
      if 1/5 ≤ col.missing_percent then "high" else "medium")]
   else [])
  ++ (if 0 < col.outlier_count then [(col.name, "outliers", "medium")] else [])
  ++ (match viol.lookup col.name with
      | some r =>
        if 0 < r.invalid_count then
          [(col.name, "schema_violations",
            if invalidPercentHigh r then "high" else "medium")]
        else []
      | none => [])

/-! ### Concrete inputs for witnesses and counterexamples -/

/-- An object column `["a", missing, missing]`. -/
def c1ColX : Column := Column.mk Dtype.object [Value.vStr "a", Value.vNull, Value.vNull]

/-- An object column of three missing cells. -/
def c1ColY : Column := Column.mk Dtype.object [Value.vNull, Value.vNull, Value.vNull]

def c1Df : DFrame := DFrame.mk [("x", c1ColX), ("y", c1ColY)] 3

/-- A dataset with one numeric-dtype column and zero rows. -/
def c2Df : DFrame := DFrame.mk [("a", Column.mk Dtype.numeric [])] 0

def c6Current : DFrame :=
  DFrame.mk [("a", Column.mk Dtype.numeric [Value.vNum 1])] 1

def c6Baseline : DFrame :=
  DFrame.mk [("b", Column.mk Dtype.numeric [Value.vNum 2])] 1

/-- A strictly boolean-dtype column. -/
def c10Col : Column := Column.mk Dtype.boolean [Value.vBool true, Value.vBool false]

def c10Df : DFrame := DFrame.mk [("flag", c10Col)] 2

/-! ### Helper lemmas -/

theorem profileColumn_outlier (p : String × Column) :
    (profileColumn p.1 p.2).outlier_count = outlierCountSpec p.2 := by
  simp only [profileColumn, outlierCountSpec, _iqr_outliers]

/-! ### Claims -/

/-- C3: for every column the Type Inferrer returns exactly one of
numeric/boolean/datetime/string, decided by the spec's first-match-wins order:
boolean dtype → boolean; numeric dtype → numeric; no non-missing values →
string; datetime_ratio ≥ 0.9 → datetime; numeric_ratio ≥ 0.9 → numeric;
boolean_ratio ≥ 0.9 → boolean; otherwise string. -/
theorem claim_C3_type_inference_order :
    ∀ c : Column, infer_column_type c = inferTypeSpec c ∧
      (infer_column_type c = ColType.numeric ∨ infer_column_type c = ColType.boolean ∨
        infer_column_type c = ColType.datetime ∨ infer_column_type c = ColType.string) := by
  intro c
  constructor
  · simp only [infer_column_type, inferTypeSpec, ratioOf, nonNullValues]
  · cases h : infer_column_type c <;> simp

/-- C5: the profiler's per-column outlier_count (in profile order) is exactly
the claim's IQR rule: 0 when the IQR is undefined or zero (empty and constant
columns included), otherwise the count of values strictly outside
[Q1 − 1.5·IQR, Q3 + 1.5·IQR]; 0 for non-numeric columns. -/
theorem claim_C5_iqr_outliers :
    ∀ df : DFrame, (profile_dataframe df).columns.map ColumnProfile.outlier_count
      = df.cols.map (fun p => outlierCountSpec p.2) := by
  intro df
  simp only [profile_dataframe, List.map_map]
  exact List.map_congr_left (fun p _ => profileColumn_outlier p)

/-- C8: the pipeline is deterministic and carries no hidden state: running the
four-stage pipeline a second time, on the dataset and baseline left by a first
run, from a fresh empty report, produces the identical report. -/
theorem claim_C8_analyze_deterministic :
    ∀ (df : DFrame) (baseline : Option DFrame),
      (runPipeline
        { dataset := (runPipeline { dataset := df, baseline := baseline, report := emptyReport }).dataset
          baseline := (runPipeline { dataset := df, baseline := baseline, report := emptyReport }).baseline
          report := emptyReport }).report
        = (runPipeline { dataset := df, baseline := baseline, report := emptyReport }).report := by
  intro df baseline
  rfl

/-- C9: every pipeline stage, and the composed pipeline, leaves the dataset
and the baseline fields of the state unchanged — stages write only to the
report. -/
theorem claim_C9_stages_preserve_inputs :
    ∀ s : PipelineState,
      ((profile_node s).dataset = s.dataset ∧ (profile_node s).baseline = s.baseline) ∧
      ((schema_node s).dataset = s.dataset ∧ (schema_node s).baseline = s.baseline) ∧
      ((drift_node s).dataset = s.dataset ∧ (drift_node s).baseline = s.baseline) ∧
      ((fix_node s).dataset = s.dataset ∧ (fix_node s).baseline = s.baseline) ∧
      ((runPipeline s).dataset = s.dataset ∧ (runPipeline s).baseline = s.baseline) := by
  intro s
  exact ⟨⟨rfl, rfl⟩, ⟨rfl, rfl⟩, ⟨rfl, rfl⟩, ⟨rfl, rfl⟩, ⟨rfl, rfl⟩⟩

/-- C2 (failing case): on a dataset with one numeric-dtype column and zero
rows, the Schema Violation Detector's `invalid.mean()` is the mean of an empty
mask — `NaN` (modelled `none`) — not the claimed
`invalid_count / max(row_count, 1) = 0`. -/
theorem claim_C2_empty_numeric_nan :
    detect_schema_violations c2Df [("a", ColType.numeric)]
      = [("a", ViolationRecord.mk 0 none)] := by
  rfl

/-- C1 (failing case): with current = baseline and object columns
`x = ["a", missing, missing]` and `y = [missing, missing, missing]`, the
categorical drift records count the stringified missing marker: the reported
top is `"nan"` with frequency 2 (resp. 3), although the claim requires the
most frequent NON-missing value (`"a"`, frequency 1) and all-null fields for a
side with no non-missing values. -/
theorem claim_C1_missing_counted_in_drift :
    (detect_drift c1Df c1Df).categorical
      = [("x", CategoricalDrift.mk (some "nan") (some ((2 : Nat) : ℚ))
            (some "nan") (some ((2 : Nat) : ℚ))),
         ("y", CategoricalDrift.mk (some "nan") (some ((3 : Nat) : ℚ))
            (some "nan") (some ((3 : Nat) : ℚ)))] := by
  rfl

/-- C7: drifting a dataset against itself gives, in every numeric drift
record, mean_delta exactly 0 — null precisely when the column has no
non-missing values — and, in every categorical record, equal current and
baseline tops. -/
theorem claim_C7_self_drift :
    ∀ d : DFrame,
      ((detect_drift d d).numeric.all (fun p =>
        decide (p.2.mean_delta =
          if (nonNullNums (lookupCol d p.1)).isEmpty then none else some (0 : ℚ))) = true) ∧
      ((detect_drift d d).categorical.all (fun p =>
        decide (p.2.current_top = p.2.baseline_top)) = true) := by
  intro d
  constructor
  · rw [List.all_eq_true]
    intro p hp
    simp only [detect_drift] at hp
    obtain ⟨name, hmem, heq⟩ := List.mem_filterMap.mp hp
    rw [decide_eq_true_iff]
    by_cases hnum : (isNumericDtype (lookupCol d name).dtype
        && isNumericDtype (lookupCol d name).dtype) = true
    · rw [if_pos hnum] at heq
      obtain rfl := Option.some.inj heq
      by_cases he : (nonNullNums (lookupCol d name)).isEmpty
      · simp [meanOpt, he]
      · simp [meanOpt, he, sub_self]
    · rw [if_neg hnum] at heq
      exact absurd heq (by simp)
  · rw [List.all_eq_true]
    intro p hp
    simp only [detect_drift] at hp
    obtain ⟨name, hmem, heq⟩ := List.mem_filterMap.mp hp
    rw [decide_eq_true_iff]
    by_cases hnum : (isNumericDtype (lookupCol d name).dtype
        && isNumericDtype (lookupCol d name).dtype) = true
    · rw [if_pos hnum] at heq
      exact absurd heq (by simp)
    · rw [if_neg hnum] at heq
      obtain rfl := (Option.some_inj.mp heq).symm
      rfl

/-- C6: with no shared column names the Drift Detector returns empty numeric
and categorical maps and a (one-element, hence non-empty) notes list, not an
error; and on every pair of datasets no column name is a key of both the
numeric and the categorical map. -/
theorem claim_C6_no_shared_columns :
    ∀ current baseline : DFrame,
      (sharedColumns current baseline = [] →
        (detect_drift current baseline).numeric = [] ∧
        (detect_drift current baseline).categorical = [] ∧
        (detect_drift current baseline).notes.length = 1) ∧
      (((detect_drift current baseline).numeric.map Prod.fst).all (fun n =>
        ((detect_drift current baseline).categorical.map Prod.fst).all (fun m =>
          !(n == m))) = true) := by
  intro current baseline
  constructor
  · intro h
    simp [detect_drift, h]
  · rw [List.all_eq_true]
    intro n hn
    rw [List.all_eq_true]
    intro m hm
    simp only [List.mem_map] at hn hm
    obtain ⟨⟨n', rn⟩, hn', rfl⟩ := hn
    obtain ⟨⟨m', rm⟩, hm', rfl⟩ := hm
    simp only [detect_drift] at hn' hm'
    obtain ⟨a, ha, haeq⟩ := List.mem_filterMap.mp hn'
    obtain ⟨b, hb, hbeq⟩ := List.mem_filterMap.mp hm'
    by_cases hca : (isNumericDtype (lookupCol current a).dtype
        && isNumericDtype (lookupCol baseline a).dtype) = true
    · rw [if_pos hca] at haeq
      have ha1 : a = n' := congrArg Prod.fst (Option.some.inj haeq)
      by_cases hcb : (isNumericDtype (lookupCol current b).dtype
          && isNumericDtype (lookupCol baseline b).dtype) = true
      · rw [if_pos hcb] at hbeq
        exact absurd hbeq (by simp)
      · rw [if_neg hcb] at hbeq
        have hb1 : b = m' := congrArg Prod.fst (Option.some.inj hbeq)
        have hne : n' ≠ m' := by
          intro hnm
          exact hcb (by rw [hb1, ← hnm, ← ha1]; exact hca)
        simp [hne]
    · rw [if_neg hca] at haeq
      exact absurd haeq (by simp)

theorem claim_C6_no_shared_columns_witness :
    ((detect_drift c6Current c6Baseline).numeric = [] ∧
     (detect_drift c6Current c6Baseline).categorical = [] ∧
     (detect_drift c6Current c6Baseline).notes.length = 1) ∧
    (((detect_drift c6Current c6Baseline).numeric.map Prod.fst).all (fun n =>
      ((detect_drift c6Current c6Baseline).categorical.map Prod.fst).all (fun m =>
        !(n == m))) = true) :=
  ⟨(claim_C6_no_shared_columns c6Current c6Baseline).1 rfl,
   (claim_C6_no_shared_columns c6Current c6Baseline).2⟩

theorem ite_flip_le {α : Type} (x y : ℚ) (a b : α) :
    (if x < y then a else b) = if y ≤ x then b else a := by
  by_cases h : x < y
  · rw [if_pos h, if_neg (not_le.mpr h)]
  · rw [if_neg h, if_pos (not_lt.mp h)]

theorem recsForColumn_triples (col : ColumnProfile) (v : List (String × ViolationRecord)) :
    (recsForColumn col v).map (fun r => (r.column, r.issue, r.severity))
      = recTriplesSpec col v := by
  unfold recsForColumn recTriplesSpec
  rw [List.map_append, List.map_append]
  refine congrArg₂ (· ++ ·) (congrArg₂ (· ++ ·) ?_ ?_) ?_
  · split
    · simp [ite_flip_le]
    · simp
  · split <;> simp
  · cases hv : v.lookup col.name with
    | none => simp
    | some r => by_cases hc : 0 < r.invalid_count <;> simp [hc]

/-- C4: the Recommendation Synthesizer emits, per profile column in profile
order, at most one missing_values entry (iff missing_percent ≥ 0.05; high iff
≥ 0.2 else medium), then at most one outliers entry (iff outlier_count > 0;
always medium), then at most one schema_violations entry (iff the column's
violation record has invalid_count > 0; high iff invalid_percent > 0.1 else
medium) — and nothing else. -/
theorem claim_C4_recommendation_table :
    ∀ (profile : ProfileResult) (schema : SchemaSection),
      (recommend_fixes profile schema).map (fun r => (r.column, r.issue, r.severity))
        = profile.columns.flatMap (fun col => recTriplesSpec col schema.violations) := by
  intro profile schema
  unfold recommend_fixes
  rw [List.map_flatMap]
  have h : (fun col => (recsForColumn col schema.violations).map
        (fun r => (r.column, r.issue, r.severity)))
      = fun col => recTriplesSpec col schema.violations :=
    funext (fun col => recsForColumn_triples col schema.violations)
  rw [h]

theorem lookup_map_pair {α β : Type} (l : List (String × α)) (f : String → α → β)
    (k : String) (a : α) (h : l.lookup k = some a) :
    (l.map (fun p => (p.1, f p.1 p.2))).lookup k = some (f k a) := by
  induction l with
  | nil => simp at h
  | cons hd tl ih =>
    obtain ⟨k', a'⟩ := hd
    by_cases hk : k = k'
    · subst hk
      simp [List.lookup] at h ⊢
      exact congrArg (f k) h
    · have hbeq : (k == k') = false := beq_eq_false_iff_ne.mpr hk
      simp only [List.map_cons, List.lookup, hbeq] at h ⊢
      exact ih h

theorem boolToken_of_vBool (b : Bool) :
    boolTokens.contains (strLower (valueToStr (Value.vBool b))) = true := by
  cases b <;> decide

theorem boolValues_no_violation (vs : List Value)
    (h : vs.all (fun v => match v with | .vBool _ => true | _ => false) = true) :
    ((vs.filter (fun v => !v.isNull)).map (fun v => strLower (valueToStr v))).filter
      (fun s => !boolTokens.contains s) = [] := by
  rw [List.filter_eq_nil_iff]
  intro s hs
  obtain ⟨v, hvmem, rfl⟩ := List.mem_map.mp hs
  have hvs : v ∈ vs := (List.mem_filter.mp hvmem).1
  rw [List.all_eq_true] at h
  have hb := h v hvs
  cases v with
  | vBool b => simpa using boolToken_of_vBool b
  | vNum q => simp at hb
  | vStr t => simp at hb
  | vNull => simp at hb

theorem boolColumn_violationsFor (c : Column) (hwf : c.wfB = true)
    (hdt : c.dtype = Dtype.boolean) :
    violationsFor c ColType.boolean = ViolationRecord.mk 0 (some 0) := by
  have hvals : c.values.all (fun v => match v with | .vBool _ => true | _ => false) = true := by
    unfold Column.wfB at hwf
    rw [hdt] at hwf
    exact hwf
  have hempty := boolValues_no_violation c.values hvals
  simp only [violationsFor, nonNullValues]
  rw [hempty]
  norm_num

theorem profileColumn_name (n : String) (c : Column) : (profileColumn n c).name = n := rfl

/-- C10: a column that is strictly boolean-typed at the source level is
inferred `boolean`, its schema-violation record is invalid_count = 0 with
invalid_percent = 0 (stringified, lowercased booleans are always in the token
set), and no schema_violations recommendation is ever emitted for it. -/
theorem claim_C10_boolean_column_clean :
    ∀ (df : DFrame) (name : String) (c : Column),
      df.cols.lookup name = some c → c.wfB = true → c.dtype = Dtype.boolean →
      infer_column_type c = ColType.boolean ∧
      (detect_schema_violations df (inferredSchema df)).lookup name
        = some (ViolationRecord.mk 0 (some 0)) ∧
      ((recommend_fixes (profile_dataframe df)
          (SchemaSection.mk (inferredSchema df)
            (detect_schema_violations df (inferredSchema df)))).all
        (fun r => !(r.column == name && r.issue == "schema_violations"))) = true := by
  intro df name c hlook hwf hdt
  have hinf : infer_column_type c = ColType.boolean := by
    simp [infer_column_type, isBoolDtype, hdt]
  have hlc : lookupCol df name = c := by
    simp [lookupCol, hlook]
  have hs1 : (inferredSchema df).lookup name = some (infer_column_type c) := by
    unfold inferredSchema
    exact lookup_map_pair df.cols (fun _ col => infer_column_type col) name c hlook
  have hs2 : (detect_schema_violations df (inferredSchema df)).lookup name
      = some (violationsFor (lookupCol df name) (infer_column_type c)) := by
    unfold detect_schema_violations
    exact lookup_map_pair (inferredSchema df) (fun k t => violationsFor (lookupCol df k) t)
      name (infer_column_type c) hs1
  have hv0 : (detect_schema_violations df (inferredSchema df)).lookup name
      = some (ViolationRecord.mk 0 (some 0)) := by
    rw [hs2, hlc, hinf, boolColumn_violationsFor c hwf hdt]
  refine ⟨hinf, hv0, ?_⟩
  rw [List.all_eq_true]
  intro r hr
  unfold recommend_fixes at hr
  obtain ⟨col, hcolmem, hrin⟩ := List.mem_flatMap.mp hr
  simp only [profile_dataframe] at hcolmem
  obtain ⟨⟨n0, c0⟩, hpair, rfl⟩ := List.mem_map.mp hcolmem
  unfold recsForColumn at hrin
  have hmv : ("missing_values" == "schema_violations") = false := by decide
  have hol : ("outliers" == "schema_violations") = false := by decide
  rcases List.mem_append.mp hrin with h12 | h3
  · rcases List.mem_append.mp h12 with h1 | h2
    · by_cases hcond : 1/20 ≤ (profileColumn n0 c0).missing_percent
      · rw [if_pos hcond, List.mem_singleton] at h1
        subst h1
        simp [hmv]
      · rw [if_neg hcond] at h1
        exact absurd h1 (List.not_mem_nil r)
    · by_cases hcond : 0 < (profileColumn n0 c0).outlier_count
      · rw [if_pos hcond, List.mem_singleton] at h2
        subst h2
        simp [hol]
      · rw [if_neg hcond] at h2
        exact absurd h2 (List.not_mem_nil r)
  · rw [profileColumn_name] at h3
    dsimp only at h3
    cases hv : (detect_schema_violations df (inferredSchema df)).lookup n0 with
    | none => simp [hv] at h3
    | some rv =>
      rw [hv] at h3
      by_cases hic : 0 < rv.invalid_count
      · dsimp only at h3
        rw [if_pos hic, List.mem_singleton] at h3
        subst h3
        have hn : n0 ≠ name := by
          intro he
          subst he
          rw [hv0] at hv
          have hrv : rv = ViolationRecord.mk 0 (some 0) := (Option.some.inj hv).symm
          rw [hrv] at hic
          simp at hic
        have hb : (n0 == name) = false := beq_eq_false_iff_ne.mpr hn
        simp [hb]
      · dsimp only at h3
        rw [if_neg hic] at h3
        exact absurd h3 (List.not_mem_nil r)

theorem claim_C10_boolean_column_clean_witness :
    infer_column_type c10Col = ColType.boolean ∧
    (detect_schema_violations c10Df (inferredSchema c10Df)).lookup "flag"
      = some (ViolationRecord.mk 0 (some 0)) ∧
    ((recommend_fixes (profile_dataframe c10Df)
        (SchemaSection.mk (inferredSchema c10Df)
          (detect_schema_violations c10Df (inferredSchema c10Df)))).all
      (fun r => !(r.column == "flag" && r.issue == "schema_violations"))) = true :=
  claim_C10_boolean_column_clean c10Df "flag" c10Col rfl rfl rfl
